import Mathlib

/-!
Shallow embedding of the chat gateway in `src/main.py`: the Connection
Registry (the `active_connections` dict), the Mongo-backed conversation and
message store (`MongoUserManager`), and the per-connection websocket session
handler (`websocket_endpoint`).  Identities are strings, transport handles
and store-assigned ObjectIds are natural numbers, `time.time()` instants are
natural numbers.
-/

namespace ChatApp

/-- A live transport handle (one websocket connection), identified by a
number so that distinct physical connections of the same user can be told
apart. -/
abbrev Conn := Nat

/-- The process-wide `active_connections` dict: username to websocket. -/
abbrev Registry := String → Option Conn

/-- The empty registry: no active connections. -/
def Registry.empty : Registry := fun _ => none

/-- The dict assignment `active_connections[username] = websocket`
(line 329 of main.py): installs or replaces the entry for `u`. -/
def Registry.register (r : Registry) (u : String) (h : Conn) : Registry :=
  fun v => if v = u then some h else r v

/-- The cleanup in the `finally` block (lines 385-386 of main.py):
`if username in active_connections: del active_connections[username]`.
Note it deletes by username alone; it does not compare the stored websocket
with the connection that is cleaning up. -/
def Registry.deregister (r : Registry) (u : String) : Registry :=
  fun v => if v = u then none else r v

/-- Dictionary lookup, as in `participant in active_connections` followed by
`active_connections[participant]` (lines 365-366 of main.py). -/
def Registry.lookup (r : Registry) (u : String) : Option Conn := r u

/-- A document of the `chats` collection, as built by
`MongoUserManager.create_chat` (lines 142-148 of main.py). -/
structure Chat where
  id : Nat
  participants : List String
  createdAt : Nat
  lastMessageAt : Option Nat
  isGroup : Bool
  chatName : Option String
  deriving DecidableEq

/-- A document of the `messages` collection, as built by
`MongoUserManager.add_message_to_chat` (lines 154-159 of main.py). -/
structure Message where
  chatId : Nat
  sender : String
  message : String
  timestamp : Nat
  deriving DecidableEq

/-- The durable store: the `chats` and `messages` collections, plus the
counter handing out the next store-assigned id. -/
structure Store where
  chats : List Chat
  messages : List Message
  nextId : Nat
  deriving DecidableEq

/-- The `participants` argument of `create_chat`, which Python accepts as
either a single username or a list of usernames
(`participants: Union[str, List[str]]`). -/
inductive Participants where
  | single (p : String)
  | list (ps : List String)
  deriving DecidableEq

/-- Lines 127-131 of main.py: if `participants` is a string, the list
becomes `[initiator, participants]`; if it is a list not containing the
initiator, the initiator is appended. -/
def resolveParticipants (initiator : String) : Participants → List String
  | .single p => [initiator, p]
  | .list ps => if initiator ∈ ps then ps else ps ++ [initiator]

/-- The Mongo query of lines 135-138 of main.py:
`find_one({'participants': {'$all': ps}, 'is_group': False})`: the document
must contain every queried participant and must not be a group chat. -/
def chatMatches (ps : List String) (c : Chat) : Bool :=
  ps.all (fun q => c.participants.contains q) && (c.isGroup == false)

/-- `MongoUserManager.create_chat` (lines 125-150 of main.py).  For
non-group chats it first looks for an existing matching document and, if
found, returns its id without inserting; otherwise it inserts a fresh
document and returns the new id. -/
def create_chat (s : Store) (initiator : String) (participants : Participants)
    (is_group : Bool) (now : Nat) : Nat × Store :=
  let ps := resolveParticipants initiator participants
  match (if is_group then none else s.chats.find? (chatMatches ps)) with
  | some c => (c.id, s)
  | none =>
    (s.nextId,
      { chats := s.chats ++
          [{ id := s.nextId, participants := ps, createdAt := now,
             lastMessageAt := none, isGroup := is_group,
             chatName := if is_group then some (ps.headD "") else none }],
        messages := s.messages,
        nextId := s.nextId + 1 })

/-- `MongoUserManager.add_message_to_chat` (lines 152-170 of main.py):
inserts the message document, then `update_one` sets `last_message_at` on
the chat with the given id (a no-op when no chat matches). -/
def add_message_to_chat (s : Store) (chat_id : Nat) (sender message : String)
    (now : Nat) : Message × Store :=
  let m : Message :=
    { chatId := chat_id, sender := sender, message := message, timestamp := now }
  (m,
    { chats := s.chats.map (fun c =>
        if c.id = chat_id then { c with lastMessageAt := some now } else c),
      messages := s.messages ++ [m],
      nextId := s.nextId })

/-- Ordering of messages by timestamp, the sort key of
`get_chat_messages` (`sort=[('timestamp', 1)]`, line 210 of main.py). -/
def msgLe (a b : Message) : Prop := a.timestamp ≤ b.timestamp

instance : DecidableRel msgLe := fun a b => Nat.decLe a.timestamp b.timestamp

instance : IsTotal Message msgLe := ⟨fun a b => Nat.le_total a.timestamp b.timestamp⟩

instance : IsTrans Message msgLe := ⟨fun _ _ _ h h2 => Nat.le_trans h h2⟩

/-- `MongoUserManager.get_chat_messages` (lines 206-217 of main.py): all
messages of the chat, sorted ascending by timestamp. -/
def get_chat_messages (s : Store) (chat_id : Nat) : List Message :=
  List.insertionSort msgLe (s.messages.filter (fun m => m.chatId == chat_id))

/-- An outbound (server to client) websocket frame of `websocket_endpoint`. -/
inductive Frame where
  | chatCreated (chatId : Nat) (participants : Participants) (isGroup : Bool)
  | newMessage (chatId : Nat) (sender : String) (message : String) (isGroup : Bool)
  | error (message : String)
  deriving DecidableEq

/-- An inbound (client to server) frame, dispatched on its `type` field;
frames with any unrecognized `type` fall into `other` (no branch of the
if/elif chain of lines 337-352 of main.py matches them). -/
inductive InFrame where
  | createChat (initiator : String) (participants : Participants) (isGroup : Bool)
  | sendMessage (chatId : Nat) (sender : String) (message : String)
  | other (tag : String)
  deriving DecidableEq

/-- The Python text of the exception raised at line 364 of main.py when
`find_one` returned `None` and `.get` is called on it, reported via
`str(e)` in the error frame of lines 376-379. -/
def errNoChat : String := "NoneType object has no attribute get"

/-- The text reported by the error frame of lines 376-379 of main.py when a
`send_text` to a recipient raises inside the broadcast loop. -/
def errSend : String := "failed to send to participant"

/-- The broadcast loop of lines 364-372 of main.py.  `failing c = true`
models a transport whose `send_text` raises.  Returns the sends that were
performed (connection, frame) and whether the loop was aborted by a raised
exception; a raise stops the loop at once, so nothing after the failing
recipient is attempted. -/
def fanOut (reg : Registry) (failing : Conn → Bool) (fr : Frame) :
    List String → List (Conn × Frame) × Bool
  | [] => ([], false)
  | p :: ps =>
    match reg.lookup p with
    | none => fanOut reg failing fr ps
    | some c =>
      if failing c then ([], true)
      else
        let rest := fanOut reg failing fr ps
        ((c, fr) :: rest.1, rest.2)

/-- The `send_message` branch of `websocket_endpoint` (lines 352-379 of
main.py): persist the message, look the chat up again, broadcast to every
connected participant; any exception inside the `try` is caught and
answered with an `error` frame on the sending connection (`selfConn`). -/
def handle_send_message (s : Store) (reg : Registry) (selfConn : Conn)
    (failing : Conn → Bool) (chat_id : Nat) (sender message : String)
    (now : Nat) : Store × List (Conn × Frame) :=
  let s1 := (add_message_to_chat s chat_id sender message now).2
  match s1.chats.find? (fun c => c.id == chat_id) with
  | none => (s1, [(selfConn, Frame.error errNoChat)])
  | some chat =>
    let fr := Frame.newMessage chat_id sender message chat.isGroup
    let r := fanOut reg failing fr chat.participants
    (s1, r.1 ++ if r.2 then [(selfConn, Frame.error errSend)] else [])

/-- The `participants` value echoed by the `chat_created` reply (line 348
of main.py): `create_chat` mutates a list argument in place by appending
the initiator, so the echoed list reflects that append; a string argument
is echoed unchanged. -/
def echoParticipants (initiator : String) : Participants → Participants
  | .single p => .single p
  | .list ps => .list (if initiator ∈ ps then ps else ps ++ [initiator])

/-- One iteration of the receive loop of `websocket_endpoint` (lines
332-379 of main.py): dispatch one inbound frame, returning the new store
and the outbound sends.  A frame with an unrecognized `type` matches no
branch and does nothing. -/
def handleFrame (selfConn : Conn) (failing : Conn → Bool) (s : Store)
    (reg : Registry) (now : Nat) : InFrame → Store × List (Conn × Frame)
  | .createChat initiator parts g =>
    let r := create_chat s initiator parts g now
    (r.2, [(selfConn, Frame.chatCreated r.1 (echoParticipants initiator parts) g)])
  | .sendMessage cid sender msg =>
    handle_send_message s reg selfConn failing cid sender msg now
  | .other _ => (s, [])

/-- The receive loop itself: process a whole sequence of inbound frames in
arrival order, threading the store and collecting the outbound sends (the
registry is only mutated at connect and disconnect, not inside the loop). -/
def runFrames (selfConn : Conn) (failing : Conn → Bool) :
    Store → Registry → Nat → List InFrame → Store × List (Conn × Frame)
  | s, _, _, [] => (s, [])
  | s, reg, now, f :: fs =>
    let r := handleFrame selfConn failing s reg now f
    let rest := runFrames selfConn failing r.1 reg (now + 1) fs
    (rest.1, r.2 ++ rest.2)

/-- `MongoUserManager.validate_token` (lines 118-123 of main.py) over the
`tokens` collection, modelled as token/username pairs. -/
def validate_token (tokens : List (String × String)) (token : String) :
    Option String :=
  (tokens.find? (fun p => p.1 == token)).map Prod.snd

/-- The close code used at line 323 of main.py for a rejected token:
`websocket.close(code=1008, reason="Invalid token")`. -/
def authRejectCode : Nat := 1008

/-- The close reason used at line 323 of main.py. -/
def authRejectReason : String := "Invalid token"

/-- The RFC 6455 close code of a normal closure, the code carried by an
ordinary client disconnect; the code never closes with it explicitly. -/
def normalCloseCode : Nat := 1000

/-- Outcome of the connection phase of `websocket_endpoint`. -/
structure ConnectResult where
  close : Option (Nat × String)
  registry : Registry
  accepted : Bool

/-- Lines 318-329 of main.py: validate the token; on failure close with a
distinguished code and return without accepting or registering; on success
accept and register the connection under the resolved username. -/
def ws_connect (tokens : List (String × String)) (reg : Registry)
    (token : String) (conn : Conn) : ConnectResult :=
  match validate_token tokens token with
  | none => { close := some (authRejectCode, authRejectReason),
              registry := reg, accepted := false }
  | some username =>
      { close := none, registry := reg.register username conn, accepted := true }

/-! Helper lemmas shared by several claims. -/

/-- Two pointwise-equal predicates find the same first element. -/
theorem find?_congr_fun {α : Type} {p q : α → Bool} (h : ∀ x, p x = q x) :
    (l : List α) → l.find? p = l.find? q
  | [] => rfl
  | a :: l => by
    rw [List.find?_cons, List.find?_cons, h a, find?_congr_fun h l]

/-- The non-group duplicate check is insensitive to the order in which the
pair is listed: the query only asks for membership of each name. -/
theorem chatMatches_pair_comm (A B : String) (c : Chat) :
    chatMatches [A, B] c = chatMatches [B, A] c := by
  unfold chatMatches
  simp only [List.all_cons, List.all_nil, Bool.and_true]
  rw [Bool.and_comm (c.participants.contains A) (c.participants.contains B)]

/-- Inserting a message leaves the chat lookup by id unaffected when no chat
has that id: the `update_one` of `add_message_to_chat` matches nothing. -/
theorem add_message_find?_none (s : Store) (cid : Nat) (sender msg : String)
    (now : Nat) (h : s.chats.find? (fun c => c.id == cid) = none) :
    (add_message_to_chat s cid sender msg now).2.chats.find?
      (fun c => c.id == cid) = none := by
  have hid : ∀ c ∈ s.chats,
      (if c.id = cid then { c with lastMessageAt := some now } else c) = c := by
    intro c hc
    have hne : ¬(c.id == cid) = true := List.find?_eq_none.mp h c hc
    simp only [beq_iff_eq] at hne
    simp [hne]
  simp only [add_message_to_chat]
  rw [List.map_congr_left hid, List.map_id']
  exact h

/-! Claim C1: Connection Registry, stale deregister. -/

/-- Claim C1, counterexample.  After user `a` registers connection 1 and is
then superseded by connection 2, the cleanup (deregister) run by the stale
connection 1 evicts connection 2's entry: the lookup afterwards is `none`,
not `some 2` as the claim requires. -/
theorem C1_counterexample :
    Registry.lookup
      (Registry.deregister
        (Registry.register (Registry.register Registry.empty "a" 1) "a" 2) "a") "a"
      = none ∧
    Registry.lookup
      (Registry.deregister
        (Registry.register (Registry.register Registry.empty "a" 1) "a" 2) "a") "a"
      ≠ some 2 := by
  constructor
  · rfl
  · intro h
    exact Option.noConfusion h

/-- Claim C1, amended: `register` installs the entry so that `lookup`
returns the most recently registered handle, but `deregister` removes the
entry for the identity unconditionally whenever one is present — it does
not check which physical connection the entry belongs to, so a stale
deregister from a superseded connection also evicts the newer entry. -/
theorem C1_amended_registry (r : Registry) (u : String) (h1 h2 : Conn) :
    Registry.lookup (Registry.register r u h1) u = some h1 ∧
    Registry.lookup (Registry.deregister r u) u = none ∧
    Registry.lookup
      (Registry.deregister (Registry.register (Registry.register r u h1) u h2) u) u
      = none := by
  refine ⟨?_, ?_, ?_⟩ <;>
    simp [Registry.lookup, Registry.register, Registry.deregister]

/-! Claim C8: authentication rejection. -/

/-- Claim C8: a connection whose token fails validation is closed with the
distinguished code 1008 and reason "Invalid token" (distinct from the
normal-closure code 1000), and the registry is left untouched, so the
connection is never registered. -/
theorem C8_auth_reject (tokens : List (String × String)) (reg : Registry)
    (token : String) (conn : Conn)
    (hv : validate_token tokens token = none) :
    (ws_connect tokens reg token conn).close
        = some (authRejectCode, authRejectReason) ∧
    (ws_connect tokens reg token conn).registry = reg ∧
    (ws_connect tokens reg token conn).accepted = false ∧
    authRejectCode ≠ normalCloseCode := by
  refine ⟨?_, ?_, ?_, ?_⟩ <;> simp [ws_connect, hv, authRejectCode, normalCloseCode]

/-- Claim C8, witness: with an empty token store every token is invalid and
the rejection path is taken. -/
theorem C8_auth_reject_witness :
    validate_token [] "t" = none ∧
    (ws_connect [] Registry.empty "t" 7).close
      = some (authRejectCode, authRejectReason) :=
  ⟨rfl, (C8_auth_reject [] Registry.empty "t" 7 rfl).1⟩

/-! Claim C9: unrecognized frame type is a no-op. -/

/-- Claim C9: a frame whose `type` matches no branch of the dispatch chain
changes nothing — the store is returned unchanged and no outbound frame is
produced — and the receive loop simply moves on to the next frame. -/
theorem C9_unrecognized_frame_noop (selfConn : Conn) (failing : Conn → Bool)
    (s : Store) (reg : Registry) (now : Nat) (tag : String) (fs : List InFrame) :
    handleFrame selfConn failing s reg now (InFrame.other tag) = (s, []) ∧
    runFrames selfConn failing s reg now (InFrame.other tag :: fs)
      = runFrames selfConn failing s reg (now + 1) fs := by
  constructor
  · rfl
  · simp [runFrames, handleFrame]

/-! Claim C10: full, ascending message history. -/

/-- Claim C10: `get_chat_messages` returns a permutation of all stored
messages of the chat (full history, no pagination), sorted ascending by
timestamp. -/
theorem C10_get_chat_messages_sorted (s : Store) (cid : Nat) :
    (get_chat_messages s cid).Perm
      (s.messages.filter (fun m => m.chatId == cid)) ∧
    List.Sorted msgLe (get_chat_messages s cid) :=
  ⟨List.perm_insertionSort msgLe _, List.sorted_insertionSort msgLe _⟩

/-! Claim C3: idempotent non-group pair creation. -/

/-- The freshly inserted non-group pair document matches its own duplicate
check. -/
theorem chatMatches_new_pair (A B : String) (t1 : Nat) (n : Nat) :
    chatMatches [A, B]
      { id := n, participants := [A, B], createdAt := t1,
        lastMessageAt := none, isGroup := false, chatName := none } = true := by
  simp [chatMatches, List.all_cons, List.all_nil]

/-- Claim C3: requesting the non-group conversation for a pair twice, the
second request naming the pair in either order, returns the conversation id
of the first request and does not change the store (no duplicate document,
no error). -/
theorem C3_create_chat_idempotent (s : Store) (A B C D : String) (t1 t2 : Nat)
    (hpair : (C = A ∧ D = B) ∨ (C = B ∧ D = A)) :
    (create_chat (create_chat s A (Participants.single B) false t1).2 C
        (Participants.single D) false t2).1
      = (create_chat s A (Participants.single B) false t1).1 ∧
    (create_chat (create_chat s A (Participants.single B) false t1).2 C
        (Participants.single D) false t2).2
      = (create_chat s A (Participants.single B) false t1).2 := by
  have hswap : ∀ (l : List Chat),
      l.find? (chatMatches [C, D]) = l.find? (chatMatches [A, B]) := by
    intro l
    rcases hpair with ⟨h1, h2⟩ | ⟨h1, h2⟩
    · rw [h1, h2]
    · rw [h1, h2]
      exact find?_congr_fun (fun c => chatMatches_pair_comm B A c) l
  cases hfind : s.chats.find? (chatMatches [A, B]) with
  | some c =>
    simp only [create_chat, resolveParticipants, if_neg Bool.false_ne_true, hfind]
    rw [hswap s.chats, hfind]
    exact ⟨rfl, rfl⟩
  | none =>
    simp only [create_chat, resolveParticipants, if_neg Bool.false_ne_true, hfind]
    rw [hswap, List.find?_append, hfind, Option.none_or,
      List.find?_cons_of_pos _ (chatMatches_new_pair A B t1 s.nextId)]
    exact ⟨rfl, rfl⟩

/-- Claim C3, witness: on an empty store, creating the (a, b) conversation
and then requesting it again as (b, a) returns the same id and store. -/
theorem C3_create_chat_idempotent_witness :
    ((("b" : String) = "a" ∧ ("a" : String) = "b") ∨
      (("b" : String) = "b" ∧ ("a" : String) = "a")) ∧
    (create_chat
        (create_chat { chats := [], messages := [], nextId := 0 } "a"
          (Participants.single "b") false 1).2 "b"
        (Participants.single "a") false 2).1
      = (create_chat { chats := [], messages := [], nextId := 0 } "a"
          (Participants.single "b") false 1).1 ∧
    (create_chat
        (create_chat { chats := [], messages := [], nextId := 0 } "a"
          (Participants.single "b") false 1).2 "b"
        (Participants.single "a") false 2).2
      = (create_chat { chats := [], messages := [], nextId := 0 } "a"
          (Participants.single "b") false 1).2 := by
  refine ⟨Or.inr ⟨rfl, rfl⟩, ?_⟩
  exact C3_create_chat_idempotent { chats := [], messages := [], nextId := 0 }
    "a" "b" "b" "a" 1 2 (Or.inr ⟨rfl, rfl⟩)

/-! Claim C7: participant lists of created conversations. -/

/-- Claim C7, counterexample: creating a chat with `participants` a single
string equal to the initiator produces a conversation document whose
participant list is the duplicate pair of that name — the invariant of a
duplicate-free list fails. -/
theorem C7_counterexample :
    ((create_chat { chats := [], messages := [], nextId := 0 } "a"
        (Participants.single "a") false 0).2.chats.map (fun c => c.participants))
      = [["a", "a"]] ∧
    ¬ (["a", "a"] : List String).Nodup := by
  constructor
  · rfl
  · decide

/-- Well-formedness of the raw `participants` argument under which the
resolved participant list is duplicate-free of size at least 2: a single
name distinct from the initiator, or a duplicate-free nonempty list that,
when it already contains the initiator, has at least two entries. -/
def ArgsWF (initiator : String) : Participants → Prop
  | .single p => p ≠ initiator
  | .list ps => ps.Nodup ∧ ps ≠ [] ∧ (initiator ∈ ps → 2 ≤ ps.length)

/-- Resolution of a well-formed `participants` argument yields a
duplicate-free list with at least two entries. -/
theorem resolveParticipants_wf (initiator : String) (parts : Participants)
    (h : ArgsWF initiator parts) :
    (resolveParticipants initiator parts).Nodup ∧
    2 ≤ (resolveParticipants initiator parts).length := by
  cases parts with
  | single p =>
    simp only [ArgsWF] at h
    refine ⟨?_, by simp [resolveParticipants]⟩
    simp [resolveParticipants, List.nodup_cons]
    exact fun he => h he.symm
  | list ps =>
    obtain ⟨hnd, hne, hlen⟩ := h
    by_cases hin : initiator ∈ ps
    · simp only [resolveParticipants, if_pos hin]
      exact ⟨hnd, hlen hin⟩
    · have hpos : 0 < ps.length := List.length_pos.mpr hne
      simp only [resolveParticipants, if_neg hin]
      constructor
      · rw [List.nodup_append]
        exact ⟨hnd, List.nodup_singleton initiator,
          fun a ha hb => hin ((List.mem_singleton.mp hb) ▸ ha)⟩
      · simp only [List.length_append, List.length_singleton]
        omega

/-- The store after `create_chat` either keeps its chat list (an existing
non-group chat was found and returned) or appends exactly the one new
document built from the resolved participant list. -/
theorem create_chat_chats (s : Store) (initiator : String)
    (parts : Participants) (g : Bool) (now : Nat) :
    (create_chat s initiator parts g now).2.chats = s.chats ∨
    (create_chat s initiator parts g now).2.chats
      = s.chats ++
        [{ id := s.nextId, participants := resolveParticipants initiator parts,
           createdAt := now, lastMessageAt := none, isGroup := g,
           chatName := if g then
             some ((resolveParticipants initiator parts).headD "") else none }] := by
  unfold create_chat
  cases hfind : (if g then none
      else s.chats.find? (chatMatches (resolveParticipants initiator parts))) with
  | some ch =>
    simp only [hfind]
    exact Or.inl trivial
  | none =>
    simp only [hfind]
    exact Or.inr trivial

/-- Claim C7, amended: every conversation document newly produced by
`create_chat` has a duplicate-free participant list of size at least 2,
provided the `participants` argument is well formed in the sense of
`ArgsWF` (the unrestricted claim fails, e.g. when the single participant
equals the initiator). -/
theorem C7_amended_participants_wf (s : Store) (initiator : String)
    (parts : Participants) (g : Bool) (now : Nat)
    (hargs : ArgsWF initiator parts) (c : Chat)
    (hc : c ∈ (create_chat s initiator parts g now).2.chats)
    (hnew : c ∉ s.chats) :
    c.participants.Nodup ∧ 2 ≤ c.participants.length := by
  have hres := resolveParticipants_wf initiator parts hargs
  rcases create_chat_chats s initiator parts g now with hec | hec
  · rw [hec] at hc
    exact absurd hc hnew
  · rw [hec] at hc
    rcases List.mem_append.mp hc with hc | hc
    · exact absurd hc hnew
    · have hce := List.mem_singleton.mp hc
      subst hce
      simpa using hres

/-- Claim C7, witness: creating a chat for initiator "a" with single
participant "b" on an empty store produces the document with participants
["a", "b"], which is duplicate-free of size 2. -/
theorem C7_amended_participants_wf_witness :
    ArgsWF "a" (Participants.single "b") ∧
    (Chat.mk 0 ["a", "b"] 5 none false none).participants.Nodup ∧
    2 ≤ (Chat.mk 0 ["a", "b"] 5 none false none).participants.length := by
  refine ⟨show ("b" : String) ≠ "a" by decide, ?_⟩
  exact C7_amended_participants_wf { chats := [], messages := [], nextId := 0 }
    "a" (Participants.single "b") false 5
    (show ("b" : String) ≠ "a" by decide)
    (Chat.mk 0 ["a", "b"] 5 none false none)
    (by decide) (by decide)

/-! Claim C2: transport write failure during fan-out. -/

/-- A raise inside the broadcast loop stops it: when every connected
participant before `p` has a working transport and `p`'s transport fails,
the loop performs exactly the sends to the connected prefix and then
aborts. -/
theorem fanOut_abort (reg : Registry) (failing : Conn → Bool) (fr : Frame)
    (p : String) (c : Conn) (hp : reg.lookup p = some c) (hf : failing c = true) :
    ∀ (pre post : List String),
      pre.all (fun q => (reg.lookup q).all (fun cq => !failing cq)) = true →
      fanOut reg failing fr (pre ++ p :: post)
        = (pre.filterMap (fun q => (reg.lookup q).map (fun cq => (cq, fr))), true)
  | [], post, _ => by
    simp [fanOut, hp, hf]
  | q :: pre, post, hall => by
    have hall' : (reg.lookup q).all (fun cq => !failing cq) = true ∧
        pre.all (fun q => (reg.lookup q).all (fun cq => !failing cq)) = true := by
      simpa [List.all_cons] using hall
    have ih := fanOut_abort reg failing fr p c hp hf pre post hall'.2
    cases hq : reg.lookup q with
    | none => simp [fanOut, hq, ih]
    | some cq =>
      have hfq : failing cq = false := by
        have := hall'.1
        rw [hq] at this
        simpa using this
      simp [fanOut, hq, hfq, ih]

/-- Claim C2, counterexample.  Chat 0 has participants a, b, c, all three
connected (handles 1, 2, 3); the write to b's connection (handle 2) fails.
Then c (handle 3) never receives the message — the fan-out was aborted —
and the sender a (handle 1) receives an `error` frame. -/
theorem C2_counterexample :
    (3, Frame.newMessage 0 "a" "hi" false) ∉
      (handle_send_message
        { chats := [{ id := 0, participants := ["a", "b", "c"], createdAt := 0,
                      lastMessageAt := none, isGroup := false, chatName := none }],
          messages := [], nextId := 1 }
        (Registry.register
          (Registry.register (Registry.register Registry.empty "a" 1) "b" 2) "c" 3)
        1 (fun c => c == 2) 0 "a" "hi" 5).2 ∧
    (1, Frame.error errSend) ∈
      (handle_send_message
        { chats := [{ id := 0, participants := ["a", "b", "c"], createdAt := 0,
                      lastMessageAt := none, isGroup := false, chatName := none }],
          messages := [], nextId := 1 }
        (Registry.register
          (Registry.register (Registry.register Registry.empty "a" 1) "b" 2) "c" 3)
        1 (fun c => c == 2) 0 "a" "hi" 5).2 := by
  decide

/-- Claim C2, amended: a transport write failure to one connected recipient
aborts the delivery attempts to all remaining recipients in fan-out order
(only the connected recipients before the failing one receive the frame)
and is surfaced as an `error` frame to the sending connection. -/
theorem C2_amended_transport_failure (s : Store) (reg : Registry)
    (selfConn : Conn) (failing : Conn → Bool) (cid : Nat) (sender msg : String)
    (now : Nat) (chat : Chat) (pre post : List String) (p : String) (c : Conn)
    (hchat : (add_message_to_chat s cid sender msg now).2.chats.find?
        (fun ch => ch.id == cid) = some chat)
    (hparts : chat.participants = pre ++ p :: post)
    (hpre : pre.all (fun q => (reg.lookup q).all (fun cq => !failing cq)) = true)
    (hp : reg.lookup p = some c) (hf : failing c = true) :
    (handle_send_message s reg selfConn failing cid sender msg now).2
      = pre.filterMap (fun q => (reg.lookup q).map
          (fun cq => (cq, Frame.newMessage cid sender msg chat.isGroup)))
        ++ [(selfConn, Frame.error errSend)] := by
  simp only [handle_send_message, hchat, hparts]
  rw [fanOut_abort reg failing
    (Frame.newMessage cid sender msg chat.isGroup) p c hp hf pre post hpre]
  simp

/-- Claim C2, amended, witness: with chat 0 over a, b, c, all connected as
handles 1, 2, 3, and b's connection failing, the sender a (handle 1)
receives the message echo followed by the error frame, and nothing is sent
to c. -/
theorem C2_amended_transport_failure_witness :
    (add_message_to_chat
        { chats := [{ id := 0, participants := ["a", "b", "c"], createdAt := 0,
                      lastMessageAt := none, isGroup := false, chatName := none }],
          messages := [], nextId := 1 } 0 "a" "hi" 5).2.chats.find?
        (fun ch => ch.id == 0)
      = some { id := 0, participants := ["a", "b", "c"], createdAt := 0,
               lastMessageAt := some 5, isGroup := false, chatName := none } ∧
    (handle_send_message
        { chats := [{ id := 0, participants := ["a", "b", "c"], createdAt := 0,
                      lastMessageAt := none, isGroup := false, chatName := none }],
          messages := [], nextId := 1 }
        (Registry.register
          (Registry.register (Registry.register Registry.empty "a" 1) "b" 2) "c" 3)
        1 (fun c => c == 2) 0 "a" "hi" 5).2
      = ["a"].filterMap (fun q =>
          ((Registry.register
            (Registry.register (Registry.register Registry.empty "a" 1) "b" 2)
            "c" 3).lookup q).map (fun cq => (cq, Frame.newMessage 0 "a" "hi"
              ({ id := 0, participants := ["a", "b", "c"], createdAt := 0,
                 lastMessageAt := some 5, isGroup := false,
                 chatName := none } : Chat).isGroup)))
        ++ [(1, Frame.error errSend)] := by
  refine ⟨by decide, ?_⟩
  exact C2_amended_transport_failure
    { chats := [{ id := 0, participants := ["a", "b", "c"], createdAt := 0,
                  lastMessageAt := none, isGroup := false, chatName := none }],
      messages := [], nextId := 1 }
    (Registry.register
      (Registry.register (Registry.register Registry.empty "a" 1) "b" 2) "c" 3)
    1 (fun c => c == 2) 0 "a" "hi" 5
    { id := 0, participants := ["a", "b", "c"], createdAt := 0,
      lastMessageAt := some 5, isGroup := false, chatName := none }
    ["a"] ["c"] "b" 2 (by decide) (by decide) (by decide) (by decide) (by decide)

/-! Claim C4: fan-out reaches exactly the connected participants. -/

/-- Claim C4: sending to a chat with participants A, B, C where exactly A
and C are in the registry delivers the `new_message` frame — carrying the
conversation id, sender, body and group flag — to exactly A and C, in that
order, and nothing to B; this includes the sender receiving its own echo
when connected.  Absent participants are skipped with no other effect. -/
theorem C4_fanout_exact (s : Store) (reg : Registry) (selfConn : Conn)
    (cid : Nat) (A B C sender msg : String) (cA cC : Conn) (now : Nat)
    (chat : Chat)
    (hchat : (add_message_to_chat s cid sender msg now).2.chats.find?
        (fun ch => ch.id == cid) = some chat)
    (hparts : chat.participants = [A, B, C])
    (hA : reg.lookup A = some cA) (hB : reg.lookup B = none)
    (hC : reg.lookup C = some cC) :
    (handle_send_message s reg selfConn (fun _ => false) cid sender msg now).2
      = [(cA, Frame.newMessage cid sender msg chat.isGroup),
         (cC, Frame.newMessage cid sender msg chat.isGroup)] := by
  simp [handle_send_message, hchat, hparts, fanOut, hA, hB, hC]

/-- Claim C4, witness: chat 0 over a, b, c with a and c connected (handles
1 and 3) and b offline; sender a receives its self-echo and c receives the
frame, b receives nothing. -/
theorem C4_fanout_exact_witness :
    (add_message_to_chat
        { chats := [{ id := 0, participants := ["a", "b", "c"], createdAt := 0,
                      lastMessageAt := none, isGroup := false, chatName := none }],
          messages := [], nextId := 1 } 0 "a" "hi" 7).2.chats.find?
        (fun ch => ch.id == 0)
      = some { id := 0, participants := ["a", "b", "c"], createdAt := 0,
               lastMessageAt := some 7, isGroup := false, chatName := none } ∧
    (handle_send_message
        { chats := [{ id := 0, participants := ["a", "b", "c"], createdAt := 0,
                      lastMessageAt := none, isGroup := false, chatName := none }],
          messages := [], nextId := 1 }
        (Registry.register (Registry.register Registry.empty "a" 1) "c" 3)
        1 (fun _ => false) 0 "a" "hi" 7).2
      = [(1, Frame.newMessage 0 "a" "hi"
            ({ id := 0, participants := ["a", "b", "c"], createdAt := 0,
               lastMessageAt := some 7, isGroup := false,
               chatName := none } : Chat).isGroup),
         (3, Frame.newMessage 0 "a" "hi"
            ({ id := 0, participants := ["a", "b", "c"], createdAt := 0,
               lastMessageAt := some 7, isGroup := false,
               chatName := none } : Chat).isGroup)] := by
  refine ⟨by decide, ?_⟩
  exact C4_fanout_exact
    { chats := [{ id := 0, participants := ["a", "b", "c"], createdAt := 0,
                  lastMessageAt := none, isGroup := false, chatName := none }],
      messages := [], nextId := 1 }
    (Registry.register (Registry.register Registry.empty "a" 1) "c" 3)
    1 0 "a" "b" "c" "a" "hi" 1 3 7
    { id := 0, participants := ["a", "b", "c"], createdAt := 0,
      lastMessageAt := some 7, isGroup := false, chatName := none }
    (by decide) (by decide) (by decide) (by decide) (by decide)

/-! Claims C5 and C6: send_message to a nonexistent conversation. -/

/-- Claim C5: a `send_message` naming a conversation id with no document in
the store makes the handler reply with a single `error` frame (carrying a
message string) on the sending connection; no `new_message` frame is
produced for anyone, and the receive loop carries on with the following
frames — the connection is not torn down. -/
theorem C5_missing_chat_error (s : Store) (reg : Registry) (selfConn : Conn)
    (failing : Conn → Bool) (cid : Nat) (sender msg : String) (now : Nat)
    (fs : List InFrame)
    (hmissing : s.chats.find? (fun c => c.id == cid) = none) :
    (handle_send_message s reg selfConn failing cid sender msg now).2
      = [(selfConn, Frame.error errNoChat)] ∧
    (∀ t c2 sd m g, (t, Frame.newMessage c2 sd m g) ∉
      (handle_send_message s reg selfConn failing cid sender msg now).2) ∧
    runFrames selfConn failing s reg now (InFrame.sendMessage cid sender msg :: fs)
      = ((runFrames selfConn failing
            (handle_send_message s reg selfConn failing cid sender msg now).1 reg
            (now + 1) fs).1,
         (selfConn, Frame.error errNoChat) ::
          (runFrames selfConn failing
            (handle_send_message s reg selfConn failing cid sender msg now).1 reg
            (now + 1) fs).2) := by
  have h1 := add_message_find?_none s cid sender msg now hmissing
  refine ⟨?_, ?_, ?_⟩
  · simp [handle_send_message, h1]
  · intro t c2 sd m g
    simp [handle_send_message, h1]
  · simp [runFrames, handleFrame, handle_send_message, h1]

/-- Claim C5, witness: an empty store has no chat 9; the handler answers
with exactly the error frame. -/
theorem C5_missing_chat_error_witness :
    ({ chats := [], messages := [], nextId := 0 } : Store).chats.find?
        (fun c => c.id == 9) = none ∧
    (handle_send_message { chats := [], messages := [], nextId := 0 }
        Registry.empty 4 (fun _ => false) 9 "a" "hi" 3).2
      = [(4, Frame.error errNoChat)] :=
  ⟨rfl, (C5_missing_chat_error { chats := [], messages := [], nextId := 0 }
    Registry.empty 4 (fun _ => false) 9 "a" "hi" 3 [] rfl).1⟩

/-- Claim C6: on a `send_message` naming a nonexistent conversation id the
message document is nevertheless inserted into the message store before the
failure is detected — the store changes even though the operation reports
an error frame. -/
theorem C6_message_persisted_despite_error (s : Store) (reg : Registry)
    (selfConn : Conn) (failing : Conn → Bool) (cid : Nat) (sender msg : String)
    (now : Nat) (hmissing : s.chats.find? (fun c => c.id == cid) = none) :
    (handle_send_message s reg selfConn failing cid sender msg now).1.messages
      = s.messages ++
        [{ chatId := cid, sender := sender, message := msg, timestamp := now }] ∧
    (handle_send_message s reg selfConn failing cid sender msg now).2
      = [(selfConn, Frame.error errNoChat)] := by
  have h1 := add_message_find?_none s cid sender msg now hmissing
  constructor
  · simp only [handle_send_message, h1]
    simp [add_message_to_chat]
  · simp only [handle_send_message, h1]

/-- Claim C6, witness: sending to the nonexistent chat 2 of an empty store
durably appends the message document while the error frame is returned. -/
theorem C6_message_persisted_despite_error_witness :
    ({ chats := [], messages := [], nextId := 0 } : Store).chats.find?
        (fun c => c.id == 2) = none ∧
    (handle_send_message { chats := [], messages := [], nextId := 0 }
        Registry.empty 6 (fun _ => false) 2 "bob" "hello" 8).1.messages
      = [] ++ [{ chatId := 2, sender := "bob", message := "hello", timestamp := 8 }] :=
  ⟨rfl, (C6_message_persisted_despite_error
    { chats := [], messages := [], nextId := 0 }
    Registry.empty 6 (fun _ => false) 2 "bob" "hello" 8 rfl).1⟩

end ChatApp
